import Mathlib

/-
  Shallow embedding of src/app.py (tutorbot): the lesson-plan generation
  flow, the tutoring chat state machine, session completion and analytics.
  Machine-level aspects not modelled: the Flask request plumbing, the real
  Hugging Face network client (modelled as an oracle), and in-place dict
  mutation that survives a raised exception mid-request (operations that
  can raise are modelled as Except values).
-/

set_option maxRecDepth 100000

namespace TutorBot

/-- JSON values as produced by the Python json module.  Numbers keep their
source lexeme (the Python float/int value is never inspected by app.py,
only re-serialized), which keeps the grammar faithful without floating
point. -/
inductive Json where
  | null : Json
  | bool (b : Bool) : Json
  | num (lexeme : String) : Json
  | str (s : String) : Json
  | arr (elems : List Json) : Json
  | obj (members : List (String × Json)) : Json

/-- The four whitespace characters accepted between JSON tokens by the
Python json module. -/
def isJsonWs (c : Char) : Bool :=
  c.toNat = 32 || c.toNat = 9 || c.toNat = 10 || c.toNat = 13

/-- Drop leading JSON whitespace. -/
def skipWs : List Char → List Char
  | [] => []
  | c :: cs => if isJsonWs c then skipWs cs else c :: cs

/-- Decimal digit test by code point. -/
def isDig (c : Char) : Bool := 48 ≤ c.toNat && c.toNat ≤ 57

/-- Hexadecimal digit value, for string escapes. -/
def hexVal (c : Char) : Option Nat :=
  if 48 ≤ c.toNat && c.toNat ≤ 57 then some (c.toNat - 48)
  else if 97 ≤ c.toNat && c.toNat ≤ 102 then some (c.toNat - 87)
  else if 65 ≤ c.toNat && c.toNat ≤ 70 then some (c.toNat - 55)
  else none

/-- Longest prefix of decimal digits, and the rest. -/
def takeDigits : List Char → List Char × List Char
  | [] => ([], [])
  | c :: cs =>
    if isDig c then
      let p := takeDigits cs
      (c :: p.1, p.2)
    else ([], c :: cs)

/-- Body of a JSON string literal, after the opening quote: returns the
decoded string and the input after the closing quote.  Follows the strict
Python json decoder: raw control characters are rejected, the short
escapes and uXXXX escapes are decoded (lone surrogates, which Lean Char
cannot hold, are rejected). -/
def parseStringBody : Nat → List Char → List Char → Option (String × List Char)
  | 0, _, _ => none
  | _ + 1, [], _ => none
  | fuel + 1, c :: cs, acc =>
    if c.toNat = 34 then some (String.mk acc.reverse, cs)
    else if c.toNat = 92 then
      match cs with
      | [] => none
      | e :: cs2 =>
        if e.toNat = 34 then parseStringBody fuel cs2 ('\x22' :: acc)
        else if e.toNat = 92 then parseStringBody fuel cs2 ('\x5c' :: acc)
        else if e.toNat = 47 then parseStringBody fuel cs2 ('/' :: acc)
        else if e = 'b' then parseStringBody fuel cs2 ('\x08' :: acc)
        else if e = 'f' then parseStringBody fuel cs2 ('\x0c' :: acc)
        else if e = 'n' then parseStringBody fuel cs2 ('\x0a' :: acc)
        else if e = 'r' then parseStringBody fuel cs2 ('\x0d' :: acc)
        else if e = 't' then parseStringBody fuel cs2 ('\x09' :: acc)
        else if e = 'u' then
          match cs2 with
          | h1 :: h2 :: h3 :: h4 :: cs3 =>
            match hexVal h1, hexVal h2, hexVal h3, hexVal h4 with
            | some a, some b, some c2, some d =>
              let n := ((a * 16 + b) * 16 + c2) * 16 + d
              if 0xd800 ≤ n ∧ n < 0xe000 then none
              else parseStringBody fuel cs3 (Char.ofNat n :: acc)
            | _, _, _, _ => none
          | _ => none
        else none
    else if c.toNat < 32 then none
    else parseStringBody fuel cs (c :: acc)

/-- Lex a JSON number: sign, integer part (no leading zeros), optional
fraction and exponent.  Returns the lexeme and the rest. -/
def lexNumber (cs : List Char) : Option (List Char × List Char) :=
  let signed : List Char × List Char :=
    match cs with
    | c :: r => if c.toNat = 45 then ([c], r) else ([], cs)
    | [] => ([], [])
  match signed.2 with
  | [] => none
  | c :: r =>
    if c.toNat = 48 then
      let intPart := signed.1 ++ [c]
      lexFrac intPart r
    else if isDig c then
      let p := takeDigits r
      lexFrac (signed.1 ++ (c :: p.1)) p.2
    else none
where
  /-- Optional fraction, then optional exponent. -/
  lexFrac (acc : List Char) (rest : List Char) : Option (List Char × List Char) :=
    match rest with
    | c :: r =>
      if c.toNat = 46 then
        let p := takeDigits r
        match p.1 with
        | [] => none
        | _ => lexExp (acc ++ (c :: p.1)) p.2
      else lexExp acc rest
    | [] => lexExp acc rest
  /-- Optional exponent part. -/
  lexExp (acc : List Char) (rest : List Char) : Option (List Char × List Char) :=
    match rest with
    | c :: r =>
      if c = 'e' || c = 'E' then
        let signedExp : List Char × List Char :=
          match r with
          | s :: r2 => if s.toNat = 43 || s.toNat = 45 then ([c, s], r2) else ([c], r)
          | [] => ([c], [])
        let p := takeDigits signedExp.2
        match p.1 with
        | [] => none
        | _ => some (acc ++ signedExp.1 ++ p.1, p.2)
      else some (acc, rest)
    | [] => some (acc, rest)

mutual

/-- One JSON value (Python json.loads grammar, including the non-standard
NaN and Infinity tokens Python accepts by default), fuelled. -/
def parseValue : Nat → List Char → Option (Json × List Char)
  | 0, _ => none
  | fuel + 1, cs =>
    match skipWs cs with
    | [] => none
    | c :: rest =>
      if c.toNat = 123 then
        match skipWs rest with
        | d :: r2 =>
          if d.toNat = 125 then some (.obj [], r2)
          else
            match parseMembers fuel rest with
            | some (kvs, r) => some (.obj kvs, r)
            | none => none
        | [] => none
      else if c.toNat = 91 then
        match skipWs rest with
        | d :: r2 =>
          if d.toNat = 93 then some (.arr [], r2)
          else
            match parseElems fuel rest with
            | some (xs, r) => some (.arr xs, r)
            | none => none
        | [] => none
      else if c.toNat = 34 then
        match parseStringBody (rest.length + 1) rest [] with
        | some (s, r) => some (.str s, r)
        | none => none
      else if c = 't' then
        match rest with
        | 'r' :: 'u' :: 'e' :: r => some (.bool true, r)
        | _ => none
      else if c = 'f' then
        match rest with
        | 'a' :: 'l' :: 's' :: 'e' :: r => some (.bool false, r)
        | _ => none
      else if c = 'n' then
        match rest with
        | 'u' :: 'l' :: 'l' :: r => some (.null, r)
        | _ => none
      else if c = 'N' then
        match rest with
        | 'a' :: 'N' :: r => some (.num ("NaN"), r)
        | _ => none
      else if c = 'I' then
        match rest with
        | 'n' :: 'f' :: 'i' :: 'n' :: 'i' :: 't' :: 'y' :: r => some (.num ("Infinity"), r)
        | _ => none
      else if c.toNat = 45 then
        match rest with
        | 'I' :: 'n' :: 'f' :: 'i' :: 'n' :: 'i' :: 't' :: 'y' :: r =>
          some (.num ("-Infinity"), r)
        | _ =>
          match lexNumber (c :: rest) with
          | some (lx, r) => some (.num (String.mk lx), r)
          | none => none
      else if isDig c then
        match lexNumber (c :: rest) with
        | some (lx, r) => some (.num (String.mk lx), r)
        | none => none
      else none

/-- Comma-separated array elements up to the closing bracket. -/
def parseElems : Nat → List Char → Option (List Json × List Char)
  | 0, _ => none
  | fuel + 1, cs =>
    match parseValue fuel cs with
    | none => none
    | some (v, r) =>
      match skipWs r with
      | c :: r2 =>
        if c.toNat = 44 then
          match parseElems fuel r2 with
          | some (vs, r3) => some (v :: vs, r3)
          | none => none
        else if c.toNat = 93 then some ([v], r2)
        else none
      | [] => none

/-- Comma-separated object members up to the closing brace. -/
def parseMembers : Nat → List Char → Option (List (String × Json) × List Char)
  | 0, _ => none
  | fuel + 1, cs =>
    match skipWs cs with
    | c :: r =>
      if c.toNat = 34 then
        match parseStringBody (r.length + 1) r [] with
        | some (k, r2) =>
          match skipWs r2 with
          | d :: r3 =>
            if d.toNat = 58 then
              match parseValue fuel r3 with
              | some (v, r4) =>
                match skipWs r4 with
                | e :: r5 =>
                  if e.toNat = 44 then
                    match parseMembers fuel r5 with
                    | some (kvs, r6) => some ((k, v) :: kvs, r6)
                    | none => none
                  else if e.toNat = 125 then some ([(k, v)], r5)
                  else none
                | [] => none
              | none => none
            else none
          | [] => none
        | none => none
      else none
    | [] => none

end

/-- Python json.loads: parse a complete document, allowing only trailing
whitespace after the value. -/
def jsonParse (s : String) : Option Json :=
  match parseValue (2 * s.length + 2) s.toList with
  | some (v, rest) => if skipWs rest = [] then some v else none
  | none => none

/-- Errors a modelled operation can raise (the Python exceptions reachable
in the embedded routes). -/
inductive PyErr where
  | keyError : PyErr
  | indexError : PyErr
  | typeError : PyErr
  deriving DecidableEq, Repr

/-- Lookup in a JSON object as a Python dict built by json.loads: a
duplicated key keeps its last value. -/
def lookupLast (kvs : List (String × Json)) (k : String) : Option Json :=
  match kvs with
  | [] => none
  | (k2, v) :: rest =>
    match lookupLast rest k with
    | some v2 => some v2
    | none => if k2 = k then some v else none

/-- Python subscript j[k] with a string key. -/
def pyGetItem (j : Json) (k : String) : Except PyErr Json :=
  match j with
  | .obj kvs =>
    match lookupLast kvs k with
    | some v => .ok v
    | none => .error .keyError
  | _ => .error .typeError

/-- Python subscript j[0]. -/
def pyIndex0 : Json → Except PyErr Json
  | .arr (x :: _) => .ok x
  | .arr [] => .error .indexError
  | .str s =>
    match s.toList with
    | c :: _ => .ok (.str (String.mk [c]))
    | [] => .error .indexError
  | .obj _ => .error .keyError
  | _ => .error .typeError

/-- Python len(j) on a value decoded from JSON. -/
def pyLenJson : Json → Except PyErr Nat
  | .arr xs => .ok xs.length
  | .str s => .ok s.length
  | .obj kvs => .ok ((kvs.map (·.1)).dedup.length)
  | _ => .error .typeError

/-- Whether j is a dict carrying the key k. -/
def hasField (j : Json) (k : String) : Bool :=
  match j with
  | .obj kvs => kvs.any (fun kv => kv.1 == k)
  | _ => false

/-- ASCII lowercasing, as str.lower() acts on the ASCII range (the only
range that can affect the two ASCII search phrases of the app). -/
def lowerAscii (c : Char) : Char :=
  if 65 ≤ c.toNat ∧ c.toNat ≤ 90 then Char.ofNat (c.toNat + 32) else c

/-- Boolean prefix test on character lists. -/
def isPrefixChars : List Char → List Char → Bool
  | [], _ => true
  | _ :: _, [] => false
  | p :: ps, c :: cs => p == c && isPrefixChars ps cs

/-- Boolean contiguous-substring test: Python (pat in s). -/
def containsChars (pat : List Char) : List Char → Bool
  | [] => isPrefixChars pat []
  | c :: cs => isPrefixChars pat (c :: cs) || containsChars pat cs

/-- Python (pat in s.lower()) for an ASCII pattern. -/
def containsLower (s pat : String) : Bool :=
  containsChars pat.toList (s.toList.map lowerAscii)

/-- Hexadecimal digit character (lowercase), for json.dumps escapes. -/
def hexDigit (n : Nat) : Char :=
  if n < 10 then Char.ofNat (48 + n) else Char.ofNat (87 + n)

/-- One uXXXX escape sequence. -/
def uEscape (n : Nat) : List Char :=
  ['\x5c', 'u', hexDigit (n / 4096 % 16), hexDigit (n / 256 % 16),
   hexDigit (n / 16 % 16), hexDigit (n % 16)]

/-- json.dumps character escaping with the default ensure_ascii=True. -/
def escapeJsonChar (c : Char) : List Char :=
  if c.toNat = 34 then ['\x5c', '\x22']
  else if c.toNat = 92 then ['\x5c', '\x5c']
  else if c.toNat = 10 then ['\x5c', 'n']
  else if c.toNat = 9 then ['\x5c', 't']
  else if c.toNat = 13 then ['\x5c', 'r']
  else if c.toNat = 8 then ['\x5c', 'b']
  else if c.toNat = 12 then ['\x5c', 'f']
  else if c.toNat < 32 ∨ 127 ≤ c.toNat then
    if c.toNat < 65536 then uEscape c.toNat
    else uEscape (55296 + (c.toNat - 65536) / 1024) ++ uEscape (56320 + (c.toNat - 65536) % 1024)
  else [c]

/-- json.dumps of a string. -/
def jsonDumpsStr (s : String) : String :=
  String.mk ('\x22' :: ((s.toList.map escapeJsonChar).flatten ++ ['\x22']))

mutual

/-- json.dumps with the default separators.  Number lexemes are emitted as
parsed (Python would re-serialize the float value; no number ever flows
into a serialized lesson along the modelled claims). -/
def jsonDumps : Json → String
  | .null => "null"
  | .bool b => if b then "true" else "false"
  | .num lx => lx
  | .str s => jsonDumpsStr s
  | .arr xs => "[" ++ dumpsElems xs ++ "]"
  | .obj kvs => "\x7b" ++ dumpsMembers kvs ++ "\x7d"

/-- Array elements joined by a comma and space. -/
def dumpsElems : List Json → String
  | [] => ""
  | [x] => jsonDumps x
  | x :: y :: xs => jsonDumps x ++ ", " ++ dumpsElems (y :: xs)

/-- Object members joined by a comma and space. -/
def dumpsMembers : List (String × Json) → String
  | [] => ""
  | [(k, v)] => jsonDumpsStr k ++ ": " ++ jsonDumps v
  | (k, v) :: m :: kvs => jsonDumpsStr k ++ ": " ++ jsonDumps v ++ ", " ++ dumpsMembers (m :: kvs)

end

mutual

/-- Python repr of a value decoded from JSON (string quoting corner cases
approximated; only string objectives flow into the claims below). -/
def pyRepr : Json → String
  | .null => "None"
  | .bool b => if b then "True" else "False"
  | .num lx => lx
  | .str s => "\x27" ++ s ++ "\x27"
  | .arr xs => "[" ++ pyReprElems xs ++ "]"
  | .obj kvs => "\x7b" ++ pyReprMembers kvs ++ "\x7d"

/-- repr of list elements. -/
def pyReprElems : List Json → String
  | [] => ""
  | [x] => pyRepr x
  | x :: y :: xs => pyRepr x ++ ", " ++ pyReprElems (y :: xs)

/-- repr of dict members. -/
def pyReprMembers : List (String × Json) → String
  | [] => ""
  | [(k, v)] => "\x27" ++ k ++ "\x27: " ++ pyRepr v
  | (k, v) :: m :: kvs => "\x27" ++ k ++ "\x27: " ++ pyRepr v ++ ", " ++ pyReprMembers (m :: kvs)

end

/-- Python str() as used by an f-string interpolation. -/
def pyStr : Json → String
  | .str s => s
  | j => pyRepr j

/-- Zero-padded two-digit field. -/
def pad2 (n : Nat) : String := if n < 10 then "0" ++ toString n else toString n

/-- Zero-padded four-digit year. -/
def pad4 (n : Nat) : String :=
  if n < 10 then "000" ++ toString n
  else if n < 100 then "00" ++ toString n
  else if n < 1000 then "0" ++ toString n
  else toString n

/-- Civil date from days since the Unix epoch. -/
def civilFromDays (z0 : Nat) : Nat × Nat × Nat :=
  let z := z0 + 719468
  let era := z / 146097
  let doe := z % 146097
  let yoe := (doe - doe / 1460 + doe / 36524 - doe / 146096) / 365
  let y := yoe + era * 400
  let doy := doe - (365 * yoe + yoe / 4 - yoe / 100)
  let mp := (5 * doy + 2) / 153
  let d := doy - (153 * mp + 2) / 5 + 1
  let m := if mp < 10 then mp + 3 else mp - 9
  if m ≤ 2 then (y + 1, m, d) else (y, m, d)

/-- strftime of a timestamp (modelled as seconds since the epoch) with the
format used by the analytics page. -/
def strftimeYmdHM (t : Nat) : String :=
  let ymd := civilFromDays (t / 86400)
  let secs := t % 86400
  pad4 ymd.1 ++ "-" ++ pad2 ymd.2.1 ++ "-" ++ pad2 ymd.2.2 ++ " " ++
    pad2 (secs / 3600) ++ ":" ++ pad2 (secs % 3600 / 60)

/-- The system prompt for the lesson-planner model (app.py TEACHER_PROMPT). -/
def TEACHER_PROMPT : String :=
  "You\x27re an AI lesson planner. Given a topic, generate:\n1. Learning objectives (3-5 bullet points)\n2. Teaching workflow (step-by-step)\n3. 5 assessment questions with answers\n4. Practice quiz with hints\n\nRespond in JSON format: \x7b\"objectives\":[], \"workflow\":[], \"assessment\":[], \"practice_quiz\":[]\x7d"

/-- The system prompt for the tutor model (app.py STUDENT_PROMPT). -/
def STUDENT_PROMPT : String :=
  "You\x27re a patient AI tutor. Guide students through lessons:\n1. Check understanding before proceeding\n2. Explain concepts conversationally\n3. Provide practice quizzes with hints\n4. Administer assessments\n5. Be supportive and encouraging"

/-- The response text substituted when the initial teacher generation call
raises (app.py line 123). -/
def genErrorResponseText : String :=
  "\x7b\"objectives\":[\"Error generating lesson. Please try again or refine your topic.\"], \"workflow\":[\"Start with basic concepts\"], \"assessment\":[\x7b\"question\": \"Sample question?\", \"answer\": \"Sample answer\"\x7d], \"practice_quiz\":[]\x7d"

/-- The response text substituted when the modification generation call
raises (app.py line 182). -/
def modErrorResponseText : String :=
  "\x7b\"objectives\":[\"Error modifying lesson. Please try again.\"], \"workflow\":[\"Start with basic concepts\"], \"assessment\":[\x7b\"question\": \"Sample question?\", \"answer\": \"Sample answer\"\x7d], \"practice_quiz\":[]\x7d"

/-- The lesson data substituted when the initial response fails to parse
as JSON (app.py lines 132-137). -/
def fallbackLessonData : Json :=
  .obj [("objectives", .arr [.str "Error in lesson generation. Please provide more specific feedback."]),
        ("workflow", .arr [.str "Start with basic concepts"]),
        ("assessment", .arr [.obj [("question", .str "Sample question?"),
                                   ("answer", .str "Sample answer")]]),
        ("practice_quiz", .arr [])]

/-- A backend generation call, modelled as an oracle from the attempt index
and the request messages to either a reply text or a raised exception. -/
abbrev GenOracle := Nat → List (String × String) → Except Unit String

/-- The chat_completion messages for the initial lesson generation. -/
def genMessagesInitial (topic : String) : List (String × String) :=
  [("system", TEACHER_PROMPT),
   ("user", "Generate a lesson plan for the topic: " ++ topic)]

/-- The initial branch of lesson_plan: one generation call, the error
response text on a raised exception, json.loads, and the fallback lesson
data on a parse failure. -/
def initialLessonData (topic : String) (gen : GenOracle) : Json :=
  let response_text :=
    match gen 0 (genMessagesInitial topic) with
    | .ok t => t
    | .error _ => genErrorResponseText
  match jsonParse response_text with
  | some j => j
  | none => fallbackLessonData

/-- The chat_completion messages for a feedback modification request. -/
def genMessagesModify (feedback : String) (current : Json) : List (String × String) :=
  [("system", TEACHER_PROMPT ++ "\nI need the output in JSON format only."),
   ("user", "Modify this lesson plan based on the following feedback: \x27" ++ feedback ++
     "\x27.\n\nHere is the current plan:\n" ++ jsonDumps current)]

/-- The feedback branch of lesson_plan: one generation call, the error
response text on a raised exception, json.loads, and the previous draft
kept on a parse failure. -/
def modifyLessonData (feedback : String) (current : Json) (gen : GenOracle) : Json :=
  let response_text :=
    match gen 0 (genMessagesModify feedback current) with
    | .ok t => t
    | .error _ => modErrorResponseText
  match jsonParse response_text with
  | some j => j
  | none => current

/-- A closed-session summary appended to a lesson (app.py lines 347-353). -/
structure SessionSummary where
  session_id : String
  start_time : Nat
  duration : Nat
  rating : String
  score : Option Nat
  deriving DecidableEq, Repr

/-- A lesson record stored in the lessons dict (app.py lines 148-152). -/
structure LessonRec where
  lesson_data : Json
  created_at : Nat
  sessions : List SessionSummary

/-- A student session record (app.py lines 214-222); timestamps are
seconds since the epoch. -/
structure SessionData where
  token : String
  start_time : Nat
  current_step : Int
  conversation : List (String × String)
  quiz_responses : List String
  assessment_score : Option Nat
  rating : Option String
  end_time : Option Nat

/-- The welcome turn built from the first objective of the lesson. -/
def welcomeMessage (obj0 : Json) : String :=
  "Welcome! Let\x27s learn about \x27" ++ pyStr obj0 ++ "\x27. Ready to begin?"

/-- POST branch of student_interface: token validation and session
creation with the welcome turn.  A none result is the invalid-token page;
the Python in-place creation of the session dict before the welcome
message (which survives a raised IndexError) is not modelled. -/
def student_interface (lessons : List (String × LessonRec)) (token : String)
    (newSid : String) (now : Nat) : Except PyErr (Option (String × SessionData)) :=
  match lessons.lookup token with
  | none => .ok none
  | some lrec =>
    match pyGetItem lrec.lesson_data ("objectives") with
    | .error e => .error e
    | .ok objs =>
      match pyIndex0 objs with
      | .error e => .error e
      | .ok obj0 =>
        .ok (some (newSid,
          { token := token, start_time := now, current_step := 0,
            conversation := [("tutor", welcomeMessage obj0)],
            quiz_responses := [], assessment_score := none,
            rating := none, end_time := none }))

/-- The fixed degraded reply used when the student generation call raises
(app.py line 301). -/
def APOLOGY_TEXT : String :=
  "I\x27m having trouble responding right now. Please try again."

/-- The progress-heuristic phrases (app.py lines 308 and 311). -/
def ASSESS_PHRASE : String := "assessment completed"

/-- The quiz-phase phrase. -/
def QUIZ_PHRASE : String := "practice quiz"

/-- Role mapping from app roles to Hugging Face chat roles. -/
def hfRole (r : String) : String := if r = "student" then "user" else "assistant"

/-- The system message content for a chat turn. -/
def chatSystemContent (lesson : Json) (step : Int) : String :=
  STUDENT_PROMPT ++ "\nLesson Plan: " ++ jsonDumps lesson ++ "\nCurrent Step: " ++ toString step

/-- The full messages list sent on a chat turn (conversation already
carries the just-appended student message). -/
def chatMessages (lesson : Json) (step : Int) (conv : List (String × String)) :
    List (String × String) :=
  ("system", chatSystemContent lesson step) :: conv.map (fun rm => (hfRole rm.1, rm.2))

/-- The tutor reply of a chat turn: the code performs exactly one
generation call (attempt index 0) and substitutes the apology text when it
raises. -/
def oneShotReply (gen : GenOracle) (msgs : List (String × String)) : String :=
  match gen 0 msgs with
  | .ok t => t
  | .error _ => APOLOGY_TEXT

/-- The progress heuristic applied after appending the tutor reply
(app.py lines 308-313). -/
def stepAfterReply (lesson : Json) (cur : Int) (reply : String) : Except PyErr Int :=
  if containsLower reply ASSESS_PHRASE then
    match pyGetItem lesson ("workflow") with
    | .error e => .error e
    | .ok wf =>
      match pyLenJson wf with
      | .error e => .error e
      | .ok n => .ok (Int.ofNat n)
  else if containsLower reply QUIZ_PHRASE then .ok (-1)
  else .ok cur

/-- POST branch of tutor_chat on an active session: append the student
message, obtain the tutor reply, append it, and update the step. -/
def tutor_chat (lesson : Json) (sd : SessionData) (user_input : String)
    (gen : GenOracle) : Except PyErr SessionData :=
  let conv1 := sd.conversation ++ [("student", user_input)]
  let tutor_response := oneShotReply gen (chatMessages lesson sd.current_step conv1)
  let conv2 := conv1 ++ [("tutor", tutor_response)]
  match stepAfterReply lesson sd.current_step tutor_response with
  | .error e => .error e
  | .ok st => .ok { sd with conversation := conv2, current_step := st }

/-- The summary built by complete_session: the duration reproduces
Python timedelta.seconds // 60, which drops whole days; the score field
reads the existing assessment_score key, so the N/A default is
unreachable. -/
def mkSummary (sid : String) (sd : SessionData) (rating : String) (now : Nat) :
    SessionSummary :=
  { session_id := sid, start_time := sd.start_time,
    duration := (now - sd.start_time) % 86400 / 60,
    rating := rating, score := sd.assessment_score }

/-- Assignment into the lessons dict at an existing token. -/
def updateLessons (ls : List (String × LessonRec)) (tok : String) (r : LessonRec) :
    List (String × LessonRec) :=
  ls.map (fun kv => if kv.1 = tok then (tok, r) else kv)

/-- complete_session: a missing cookie redirects (none); the raw form
rating is stored without validation and the summary is appended to the
lesson.  Returns the updated lessons store and the appended summary. -/
def complete_session (lessons : List (String × LessonRec))
    (sessions : List (String × SessionData)) (sid? : Option String)
    (rating : String) (now : Nat) :
    Except PyErr (Option (List (String × LessonRec) × SessionSummary)) :=
  match sid? with
  | none => .ok none
  | some sid =>
    match sessions.lookup sid with
    | none => .error .keyError
    | some sd =>
      let summary := mkSummary sid sd rating now
      match lessons.lookup sd.token with
      | none => .error .keyError
      | some lrec =>
        .ok (some (updateLessons lessons sd.token
          { lrec with sessions := lrec.sessions ++ [summary] }, summary))

/-- A display row of the analytics page (app.py lines 381-387). -/
structure AnalyticsRecord where
  session_id : String
  date : String
  duration : String
  rating : String
  score : Option Nat
  deriving DecidableEq, Repr

/-- The render context of the analytics page (app.py lines 390-393). -/
structure AnalyticsPage where
  token : String
  topic : Json
  sessions : List AnalyticsRecord

/-- The keyword names passed to render_template by the analytics route:
these are the only values the page receives. -/
def analyticsContextKeys : List String := ["token", "topic", "sessions"]

/-- Projection of a stored summary to its display row. -/
def displayRecord (s : SessionSummary) : AnalyticsRecord :=
  { session_id := String.mk (s.session_id.toList.take 8) ++ "...",
    date := strftimeYmdHM s.start_time,
    duration := toString s.duration ++ " mins",
    rating := s.rating, score := s.score }

/-- The analytics route: a none result is the 404 page; otherwise every
stored summary is projected to a display row and the first objective is
passed as the topic. -/
def analytics (lessons : List (String × LessonRec)) (token : String) :
    Except PyErr (Option AnalyticsPage) :=
  match lessons.lookup token with
  | none => .ok none
  | some lrec =>
    let recs := lrec.sessions.map displayRecord
    match pyGetItem lrec.lesson_data ("objectives") with
    | .error e => .error e
    | .ok objs =>
      match pyIndex0 objs with
      | .error e => .error e
      | .ok obj0 => .ok (some { token := token, topic := obj0, sessions := recs })

/-- Modelled from the spec (4.3, claim C6): the span from the first
opening brace to the last closing brace of the raw text. -/
def braceSpan (s : String) : Option String :=
  let cs := s.toList
  match cs.findIdx? (fun c => c.toNat = 123), cs.reverse.findIdx? (fun c => c.toNat = 125) with
  | some i, some jr =>
    let j := cs.length - 1 - jr
    if i ≤ j then some (String.mk ((cs.drop i).take (j + 1 - i))) else none
  | _, _ => none

/-- Modelled from the spec (4.3, claim C6): parse the brace-delimited span
as the structured document. -/
def specExtract (s : String) : Option Json := (braceSpan s).bind jsonParse

/-- Modelled from the spec (4.2, claim C5): retry the same request up to
the attempt bound, then return the fixed apology string. -/
def retriedReply (bound : Nat) (gen : GenOracle) (msgs : List (String × String)) : String :=
  go bound 0
where
  go : Nat → Nat → String
    | 0, _ => APOLOGY_TEXT
    | b + 1, k =>
      match gen k msgs with
      | .ok t => t
      | .error _ => go b (k + 1)

/-- The tutor reply produced by one chat turn (abbreviation of the reply
subterm of tutor_chat, for stating claims). -/
def turnReply (lesson : Json) (sd : SessionData) (user_input : String) (gen : GenOracle) : String :=
  oneShotReply gen (chatMessages lesson sd.current_step (sd.conversation ++ [("student", user_input)]))

/-- A session record as created by student_interface, parameterized for
test states. -/
def mkSession (tok : String) (conv : List (String × String)) (step : Int) (start : Nat) :
    SessionData :=
  { token := tok, start_time := start, current_step := step, conversation := conv,
    quiz_responses := [], assessment_score := none, rating := none, end_time := none }

/-- The parse of the generation-error response text. -/
def genErrorDoc : Json :=
  .obj [("objectives", .arr [.str "Error generating lesson. Please try again or refine your topic."]),
        ("workflow", .arr [.str "Start with basic concepts"]),
        ("assessment", .arr [.obj [("question", .str "Sample question?"),
                                   ("answer", .str "Sample answer")]]),
        ("practice_quiz", .arr [])]

theorem jsonParse_genErrorResponseText : jsonParse genErrorResponseText = some genErrorDoc := by
  rfl

theorem initialLessonData_of_raise (topic : String) (gen : GenOracle)
    (h : gen 0 (genMessagesInitial topic) = .error ()) :
    initialLessonData topic gen = genErrorDoc := by
  unfold initialLessonData
  rw [h]
  rfl

theorem initialLessonData_of_unparseable (topic : String) (gen : GenOracle) (t : String)
    (hok : gen 0 (genMessagesInitial topic) = .ok t) (hparse : jsonParse t = none) :
    initialLessonData topic gen = fallbackLessonData := by
  unfold initialLessonData
  rw [hok]
  simp only [hparse]

/-- Claim C1: after a chat turn appends the tutor reply, a reply whose
lowercased text contains the phrase "assessment completed" sets
current_step to len(workflow); otherwise one containing "practice quiz"
sets it to -1; otherwise the step is unchanged. -/
theorem C1_progress_heuristic (lesson : Json) (sd : SessionData) (user_input : String)
    (gen : GenOracle) (ws : List Json)
    (hwf : pyGetItem lesson ("workflow") = .ok (.arr ws)) :
    ∃ sd2, tutor_chat lesson sd user_input gen = .ok sd2 ∧
      sd2.conversation = sd.conversation ++
        [("student", user_input), ("tutor", turnReply lesson sd user_input gen)] ∧
      (containsLower (turnReply lesson sd user_input gen) ASSESS_PHRASE = true →
        sd2.current_step = Int.ofNat ws.length) ∧
      (containsLower (turnReply lesson sd user_input gen) ASSESS_PHRASE = false →
        containsLower (turnReply lesson sd user_input gen) QUIZ_PHRASE = true →
        sd2.current_step = -1) ∧
      (containsLower (turnReply lesson sd user_input gen) ASSESS_PHRASE = false →
        containsLower (turnReply lesson sd user_input gen) QUIZ_PHRASE = false →
        sd2.current_step = sd.current_step) := by
  unfold tutor_chat turnReply stepAfterReply
  rw [hwf]
  by_cases h1 : containsLower (oneShotReply gen (chatMessages lesson sd.current_step
      (sd.conversation ++ [("student", user_input)]))) ASSESS_PHRASE
  · simp [h1, pyLenJson]
  · by_cases h2 : containsLower (oneShotReply gen (chatMessages lesson sd.current_step
        (sd.conversation ++ [("student", user_input)]))) QUIZ_PHRASE
    · simp [h1, h2]
    · simp [h1, h2]

def c1Lesson : Json := .obj [("workflow", .arr [.null, .null, .null])]

def c1Gen : GenOracle := fun _ _ => .ok ("Assessment completed. Congratulations!")

theorem C1_progress_heuristic_witness :
    ∃ sd2, tutor_chat c1Lesson (mkSession ("tok") [] 0 0) ("ready") c1Gen = .ok sd2 ∧
      sd2.conversation = (mkSession ("tok") [] 0 0).conversation ++
        [("student", "ready"), ("tutor", turnReply c1Lesson (mkSession ("tok") [] 0 0) ("ready") c1Gen)] ∧
      (containsLower (turnReply c1Lesson (mkSession ("tok") [] 0 0) ("ready") c1Gen) ASSESS_PHRASE = true →
        sd2.current_step = Int.ofNat 3) ∧
      (containsLower (turnReply c1Lesson (mkSession ("tok") [] 0 0) ("ready") c1Gen) ASSESS_PHRASE = false →
        containsLower (turnReply c1Lesson (mkSession ("tok") [] 0 0) ("ready") c1Gen) QUIZ_PHRASE = true →
        sd2.current_step = -1) ∧
      (containsLower (turnReply c1Lesson (mkSession ("tok") [] 0 0) ("ready") c1Gen) ASSESS_PHRASE = false →
        containsLower (turnReply c1Lesson (mkSession ("tok") [] 0 0) ("ready") c1Gen) QUIZ_PHRASE = false →
        sd2.current_step = (mkSession ("tok") [] 0 0).current_step) := by
  have h := C1_progress_heuristic c1Lesson (mkSession ("tok") [] 0 0) ("ready") c1Gen
    [.null, .null, .null] (by rfl)
  simpa using h

/-- Claim C2: when the one generation call of the initial lesson-plan
branch raises, or returns text that fails to parse as JSON, the stored
lesson data still carries all four required fields with a non-empty
objectives list. -/
theorem C2_lesson_plan_survives_backend_failure (topic : String) (gen : GenOracle)
    (hfail : gen 0 (genMessagesInitial topic) = .error () ∨
      ∃ t, gen 0 (genMessagesInitial topic) = .ok t ∧ jsonParse t = none) :
    hasField (initialLessonData topic gen) ("objectives") = true ∧
    hasField (initialLessonData topic gen) ("workflow") = true ∧
    hasField (initialLessonData topic gen) ("assessment") = true ∧
    hasField (initialLessonData topic gen) ("practice_quiz") = true ∧
    ∃ objs, pyGetItem (initialLessonData topic gen) ("objectives") = .ok (.arr objs) ∧
      objs ≠ [] := by
  rcases hfail with h | ⟨t, hok, hparse⟩
  · rw [initialLessonData_of_raise topic gen h]
    refine ⟨rfl, rfl, rfl, rfl,
      [.str "Error generating lesson. Please try again or refine your topic."], rfl, by simp⟩
  · rw [initialLessonData_of_unparseable topic gen t hok hparse]
    refine ⟨rfl, rfl, rfl, rfl,
      [.str "Error in lesson generation. Please provide more specific feedback."], rfl, by simp⟩

theorem C2_lesson_plan_survives_backend_failure_witness :
    hasField (initialLessonData ("Photosynthesis") (fun _ _ => .error ())) ("objectives") = true ∧
    hasField (initialLessonData ("Photosynthesis") (fun _ _ => .error ())) ("workflow") = true ∧
    hasField (initialLessonData ("Photosynthesis") (fun _ _ => .error ())) ("assessment") = true ∧
    hasField (initialLessonData ("Photosynthesis") (fun _ _ => .error ())) ("practice_quiz") = true ∧
    ∃ objs, pyGetItem (initialLessonData ("Photosynthesis") (fun _ _ => .error ())) ("objectives") =
      .ok (.arr objs) ∧ objs ≠ [] :=
  C2_lesson_plan_survives_backend_failure ("Photosynthesis") (fun _ _ => .error ())
    (Or.inl rfl)

/-- Claim C10: session creation and analytics read objectives[0] without a
guard: with a lesson whose first objective is a string both succeed - the
welcome turn quotes that first objective - and with an empty objectives
list both raise IndexError. -/
theorem C10_unguarded_first_objective (lessons : List (String × LessonRec))
    (tok : String) (lrec : LessonRec) (hlk : lessons.lookup tok = some lrec)
    (newSid : String) (now : Nat) :
    (∀ s rest, pyGetItem lrec.lesson_data ("objectives") = .ok (.arr (Json.str s :: rest)) →
      student_interface lessons tok newSid now = .ok (some (newSid,
        mkSession tok [("tutor", "Welcome! Let\x27s learn about \x27" ++ s ++ "\x27. Ready to begin?")] 0 now)) ∧
      ∃ page, analytics lessons tok = .ok (some page) ∧ page.topic = .str s) ∧
    (pyGetItem lrec.lesson_data ("objectives") = .ok (.arr []) →
      student_interface lessons tok newSid now = .error .indexError ∧
      analytics lessons tok = .error .indexError) := by
  constructor
  · intro s rest hobj
    constructor
    · unfold student_interface
      rw [hlk]
      simp only [hobj]
      rfl
    · refine ⟨AnalyticsPage.mk tok (Json.str s) (lrec.sessions.map displayRecord), ?_, rfl⟩
      unfold analytics
      rw [hlk]
      simp only [hobj]
      rfl
  · intro hobj
    constructor
    · unfold student_interface
      rw [hlk]
      simp only [hobj]
      rfl
    · unfold analytics
      rw [hlk]
      simp only [hobj]
      rfl

def c10Lessons : List (String × LessonRec) :=
  [("tokA", { lesson_data := .obj [("objectives", .arr [.str "Cells", .str "Mitosis"])],
              created_at := 0, sessions := [] }),
   ("tokB", { lesson_data := .obj [("objectives", .arr [])],
              created_at := 0, sessions := [] })]

theorem C10_unguarded_first_objective_witness :
    (student_interface c10Lessons ("tokA") ("sidA") 100 = .ok (some (("sidA"),
      mkSession ("tokA") [("tutor", "Welcome! Let\x27s learn about \x27Cells\x27. Ready to begin?")] 0 100)) ∧
     ∃ page, analytics c10Lessons ("tokA") = .ok (some page) ∧ page.topic = .str "Cells") ∧
    (student_interface c10Lessons ("tokB") ("sidB") 100 = .error .indexError ∧
     analytics c10Lessons ("tokB") = .error .indexError) := by
  constructor
  · exact (C10_unguarded_first_objective c10Lessons ("tokA") _ (by rfl) ("sidA") 100).1
      ("Cells") [.str "Mitosis"] (by rfl)
  · exact (C10_unguarded_first_objective c10Lessons ("tokB") _ (by rfl) ("sidB") 100).2
      (by rfl)

/-- Claim C3 (amended): the analytics route returns one display row per
closed-session summary with every rating passed through verbatim, and its
render context consists of exactly token, topic and the rows - it computes
no total_sessions and no avg_rating; zero sessions give an empty row list
without error. -/
theorem C3_analytics_rows_only (lessons : List (String × LessonRec))
    (tok : String) (lrec : LessonRec) (hlk : lessons.lookup tok = some lrec)
    (s : String) (rest : List Json)
    (hobj : pyGetItem lrec.lesson_data ("objectives") = .ok (.arr (Json.str s :: rest))) :
    ∃ page, analytics lessons tok = .ok (some page) ∧
      page.sessions.length = lrec.sessions.length ∧
      page.sessions.map (·.rating) = lrec.sessions.map (·.rating) ∧
      ("total_sessions" ∉ analyticsContextKeys) ∧
      ("avg_rating" ∉ analyticsContextKeys) := by
  have hpage : analytics lessons tok = .ok (some
      { token := tok, topic := .str s, sessions := lrec.sessions.map displayRecord }) := by
    unfold analytics
    rw [hlk]
    simp only [hobj]
    rfl
  exact ⟨_, hpage, by simp, by simp [displayRecord], by decide, by decide⟩

def c3wLessons : List (String × LessonRec) :=
  [("tokE", { lesson_data := .obj [("objectives", .arr [.str "Algebra"])],
              created_at := 0, sessions := [] })]

theorem C3_analytics_rows_only_witness :
    ∃ page, analytics c3wLessons ("tokE") = .ok (some page) ∧
      page.sessions.length = 0 ∧
      page.sessions.map (·.rating) = ([] : List String).map id ∧
      ("total_sessions" ∉ analyticsContextKeys) ∧
      ("avg_rating" ∉ analyticsContextKeys) := by
  have h := C3_analytics_rows_only c3wLessons ("tokE")
    { lesson_data := .obj [("objectives", .arr [.str "Algebra"])], created_at := 0, sessions := [] }
    (by rfl) ("Algebra") [] (by rfl)
  simpa using h

def c3Lesson : LessonRec :=
  { lesson_data := .obj [("objectives", .arr [.str "Photosynthesis overview"]),
      ("workflow", .arr []), ("assessment", .arr []), ("practice_quiz", .arr [])],
    created_at := 0,
    sessions :=
      [{ session_id := "aaaa1111-bbbb", start_time := 0, duration := 10,
         rating := "4", score := none },
       { session_id := "cccc2222-dddd", start_time := 60, duration := 20,
         rating := "not rated", score := none },
       { session_id := "eeee3333-ffff", start_time := 120, duration := 30,
         rating := "2", score := none }] }

/-- Claim C3 (counterexample): at the spec example - ratings 4,
"not rated", 2 - the analytics route returns no total_sessions and no
avg_rating at all: its render context names only token, topic and
sessions, and the non-numeric rating is not excluded - all three ratings
appear verbatim in the rows. -/
theorem C3_no_aggregates_counterexample :
    ("total_sessions" ∉ analyticsContextKeys) ∧
    ("avg_rating" ∉ analyticsContextKeys) ∧
    ∃ page, analytics [(("tok1" : String), c3Lesson)] ("tok1") = .ok (some page) ∧
      page.sessions.map (·.rating) = ["4", "not rated", "2"] := by
  refine ⟨by decide, by decide, _, by rfl, by rfl⟩

def c4Lessons : List (String × LessonRec) :=
  [("tokC4", { lesson_data := fallbackLessonData, created_at := 0, sessions := [] })]

def c4Sessions : List (String × SessionData) :=
  [("sid-c4", mkSession ("tokC4") [] 0 0)]

/-- Claim C4 (code bug): a session lasting one day plus 120 seconds is
recorded with duration 2 minutes - the code takes timedelta.seconds,
which drops whole days - while the claimed total wall-clock
floor-division gives floor((86400*1 + 120)/60) = 1442. -/
theorem C4_duration_drops_days :
    ∃ ls summary,
      complete_session c4Lessons c4Sessions (some ("sid-c4")) ("5") 86520 =
        .ok (some (ls, summary)) ∧
      summary.duration = 2 ∧ (86400 * 1 + 120) / 60 = 1442 ∧ summary.duration ≠ 1442 := by
  refine ⟨_, _, rfl, rfl, rfl, by decide⟩

def c5Lesson : Json := .obj [("workflow", .arr [])]

def c5Gen : GenOracle := fun k _ =>
  if k = 0 then .error () else .ok ("Glad you asked! Let\x27s continue.")

/-- Claim C5 (counterexample): with a backend whose first attempt raises
and whose second attempt would succeed, the chat turn appends the fixed
apology - the code performs no retry - although the claimed bounded retry
(spec reference bound 2) would return the second-attempt reply. -/
theorem C5_no_retry_counterexample :
    ∃ sd2, tutor_chat c5Lesson (mkSession ("tokC5") [] 0 0) ("hello") c5Gen = .ok sd2 ∧
      sd2.conversation.getLast? = some (("tutor"), APOLOGY_TEXT) ∧
      retriedReply 2 c5Gen (chatMessages c5Lesson 0 [("student", "hello")]) =
        "Glad you asked! Let\x27s continue." ∧
      APOLOGY_TEXT ≠ "Glad you asked! Let\x27s continue." := by
  refine ⟨_, rfl, by rfl, by rfl, by decide⟩

/-- Claim C5 (amended): the chat-turn generation call never propagates an
exception: the code performs exactly one attempt (index 0), and when that
attempt raises, the fixed apology string is appended as the tutor turn
and the step is left unchanged, whatever later attempts would return. -/
theorem C5_single_attempt_apology (lesson : Json) (sd : SessionData) (user_input : String)
    (gen : GenOracle)
    (hfail : gen 0 (chatMessages lesson sd.current_step
      (sd.conversation ++ [("student", user_input)])) = .error ()) :
    tutor_chat lesson sd user_input gen = .ok
      { sd with conversation := sd.conversation ++
          [("student", user_input), ("tutor", APOLOGY_TEXT)] } := by
  simp only [tutor_chat, oneShotReply]
  rw [hfail]
  have h1 : containsLower APOLOGY_TEXT ASSESS_PHRASE = false := by decide
  have h2 : containsLower APOLOGY_TEXT QUIZ_PHRASE = false := by decide
  simp [stepAfterReply, h1, h2]

theorem C5_single_attempt_apology_witness :
    tutor_chat c5Lesson (mkSession ("tokW5") [] 0 0) ("hi") (fun _ _ => .error ()) =
      .ok (mkSession ("tokW5") [("student", "hi"), ("tutor", APOLOGY_TEXT)] 0 0) := by
  have h := C5_single_attempt_apology c5Lesson (mkSession ("tokW5") [] 0 0) ("hi")
    (fun _ _ => .error ()) rfl
  simpa [mkSession] using h

theorem parseValue_fail_of_lower_alpha (fuel : Nat) (cs : List Char) (c : Char)
    (rest : List Char) (hsk : skipWs cs = c :: rest)
    (hlo : 97 ≤ c.toNat) (hhi : c.toNat ≤ 122)
    (ht : c.toNat ≠ 116) (hf : c.toNat ≠ 102) (hn : c.toNat ≠ 110) :
    parseValue fuel cs = none := by
  cases fuel with
  | zero => rfl
  | succ f =>
    have e1 : ¬ (c.toNat = 123) := by omega
    have e2 : ¬ (c.toNat = 91) := by omega
    have e3 : ¬ (c.toNat = 34) := by omega
    have e4 : ¬ (c = 't') := fun h => ht (by subst h; rfl)
    have e5 : ¬ (c = 'f') := fun h => hf (by subst h; rfl)
    have e6 : ¬ (c = 'n') := fun h => hn (by subst h; rfl)
    have e7 : ¬ (c = 'N') := fun h => absurd (h ▸ hlo) (by decide)
    have e8 : ¬ (c = 'I') := fun h => absurd (h ▸ hlo) (by decide)
    have e9 : ¬ (c.toNat = 45) := by omega
    have e10 : isDig c = false := by
      simp only [isDig, Bool.and_eq_false_iff, decide_eq_false_iff_not, not_le]
      omega
    simp only [parseValue]
    rw [hsk]
    simp [e1, e2, e3, e4, e5, e6, e7, e8, e9, e10]

theorem jsonParse_fail_of_lower_alpha (s : String) (c : Char) (rest : List Char)
    (hsk : skipWs s.toList = c :: rest) (hlo : 97 ≤ c.toNat) (hhi : c.toNat ≤ 122)
    (ht : c.toNat ≠ 116) (hf : c.toNat ≠ 102) (hn : c.toNat ≠ 110) :
    jsonParse s = none := by
  unfold jsonParse
  rw [parseValue_fail_of_lower_alpha _ _ c rest hsk hlo hhi ht hf hn]

def c6Text : String :=
  "Sure thing! Here is the plan: \x7b\"objectives\": [\"Learn anatomy\"], \"workflow\": [\"Step 1\"], \"assessment\": [], \"practice_quiz\": []\x7d Hope this helps!"

def c6Doc : Json :=
  .obj [("objectives", .arr [.str "Learn anatomy"]), ("workflow", .arr [.str "Step 1"]),
        ("assessment", .arr []), ("practice_quiz", .arr [])]

/-- Claim C6 (counterexample): for a reply wrapping a valid four-field
document in prose, the spec-modelled first-brace-to-last-brace extraction
succeeds with the wrapped document, but the code parses the whole text,
fails, and substitutes the fallback document instead. -/
theorem C6_whole_text_parse_counterexample :
    specExtract c6Text = some c6Doc ∧
    jsonParse c6Text = none ∧
    initialLessonData ("Anatomy") (fun _ _ => .ok c6Text) = fallbackLessonData ∧
    fallbackLessonData ≠ c6Doc := by
  refine ⟨by rfl, by rfl, initialLessonData_of_unparseable _ _ _ rfl (by rfl), ?_⟩
  intro h
  have h2 : pyGetItem fallbackLessonData ("objectives") = pyGetItem c6Doc ("objectives") := by
    rw [h]
  simp [pyGetItem, fallbackLessonData, c6Doc, lookupLast] at h2

/-- Claim C6 (amended): the code parses the entire raw backend text - it
performs no brace-span location - so any reply whose first non-whitespace
character is a lowercase ASCII letter other than t, f, n (prose) fails
extraction and is replaced by the fallback document, even when a valid
brace-delimited document is embedded in the text. -/
theorem C6_prose_prefix_falls_back (topic s : String) (c : Char) (rest : List Char)
    (hsk : skipWs s.toList = c :: rest) (hlo : 97 ≤ c.toNat) (hhi : c.toNat ≤ 122)
    (ht : c.toNat ≠ 116) (hf : c.toNat ≠ 102) (hn : c.toNat ≠ 110) :
    initialLessonData topic (fun _ _ => .ok s) = fallbackLessonData :=
  initialLessonData_of_unparseable _ _ _ rfl
    (jsonParse_fail_of_lower_alpha s c rest hsk hlo hhi ht hf hn)

theorem C6_prose_prefix_falls_back_witness :
    initialLessonData ("Anatomy")
      (fun _ _ => .ok ("here is your plan: \x7b\"objectives\": [\"a\"]\x7d")) =
      fallbackLessonData :=
  C6_prose_prefix_falls_back ("Anatomy") ("here is your plan: \x7b\"objectives\": [\"a\"]\x7d")
    'h' _ (by rfl) (by decide) (by decide) (by decide) (by decide) (by decide)

/-- Claim C7 (counterexample): on extraction failure with topic
"Photosynthesis" the returned fallback document does not reference the
topic: none of its four fields mentions the topic string anywhere. -/
theorem C7_fallback_ignores_topic_counterexample :
    initialLessonData ("Photosynthesis") (fun _ _ => .ok ("no json here, sorry")) =
      fallbackLessonData ∧
    pyGetItem fallbackLessonData ("objectives") =
      .ok (.arr [.str "Error in lesson generation. Please provide more specific feedback."]) ∧
    pyGetItem fallbackLessonData ("workflow") = .ok (.arr [.str "Start with basic concepts"]) ∧
    pyGetItem fallbackLessonData ("assessment") =
      .ok (.arr [.obj [("question", .str "Sample question?"), ("answer", .str "Sample answer")]]) ∧
    pyGetItem fallbackLessonData ("practice_quiz") = .ok (.arr []) ∧
    containsChars (("Photosynthesis").toList)
      (("Error in lesson generation. Please provide more specific feedback.").toList) = false ∧
    containsChars (("Photosynthesis").toList) (("Start with basic concepts").toList) = false ∧
    containsChars (("Photosynthesis").toList) (("Sample question?").toList) = false ∧
    containsChars (("Photosynthesis").toList) (("Sample answer").toList) = false := by
  refine ⟨initialLessonData_of_unparseable _ _ _ rfl (by rfl),
    rfl, rfl, rfl, rfl, by decide, by decide, by decide, by decide⟩

/-- Claim C7 (amended): the fallback document substituted on a parse
failure is deterministic because it is one fixed constant, independent
even of the topic: any two extraction failures, with equal or different
topics, yield the identical document - the fixed error template that does
not reference the topic. -/
theorem C7_fallback_constant (t1 t2 r1 r2 : String) (gen1 gen2 : GenOracle)
    (h1 : gen1 0 (genMessagesInitial t1) = .ok r1) (hp1 : jsonParse r1 = none)
    (h2 : gen2 0 (genMessagesInitial t2) = .ok r2) (hp2 : jsonParse r2 = none) :
    initialLessonData t1 gen1 = initialLessonData t2 gen2 ∧
    initialLessonData t1 gen1 = fallbackLessonData := by
  rw [initialLessonData_of_unparseable _ _ _ h1 hp1,
    initialLessonData_of_unparseable _ _ _ h2 hp2]
  exact ⟨rfl, rfl⟩

theorem C7_fallback_constant_witness :
    initialLessonData ("Photosynthesis") (fun _ _ => .ok ("oops, model ramble")) =
      initialLessonData ("Algebra") (fun _ _ => .ok ("different ramble")) ∧
    initialLessonData ("Photosynthesis") (fun _ _ => .ok ("oops, model ramble")) =
      fallbackLessonData :=
  C7_fallback_constant ("Photosynthesis") ("Algebra") ("oops, model ramble")
    ("different ramble") _ _ rfl (by rfl) rfl (by rfl)

def c8Prev : Json :=
  .obj [("objectives", .arr [.str "Understand matrices"]),
        ("workflow", .arr [.str "Define a matrix"]),
        ("assessment", .arr []), ("practice_quiz", .arr [])]

/-- Claim C8 (counterexample): a generation result that parses as JSON but
is not a structured document - a bare two-element array carrying none of
the four required fields - still replaces the draft: afterwards the draft
is that array, not the previous plan. -/
theorem C8_nondocument_replaces_draft_counterexample :
    jsonParse ("[1, 2]") = some (.arr [.num ("1"), .num ("2")]) ∧
    hasField (.arr [.num ("1"), .num ("2")]) ("objectives") = false ∧
    hasField (.arr [.num ("1"), .num ("2")]) ("workflow") = false ∧
    hasField (.arr [.num ("1"), .num ("2")]) ("assessment") = false ∧
    hasField (.arr [.num ("1"), .num ("2")]) ("practice_quiz") = false ∧
    modifyLessonData ("shorter please") c8Prev (fun _ _ => .ok ("[1, 2]")) =
      .arr [.num ("1"), .num ("2")] ∧
    Json.arr [.num ("1"), .num ("2")] ≠ c8Prev := by
  refine ⟨by rfl, rfl, rfl, rfl, rfl, by rfl, ?_⟩
  unfold c8Prev
  intro h
  exact Json.noConfusion h

/-- Claim C8 (amended): the feedback branch replaces the draft exactly
when the generation result parses as JSON - by the parsed value, whatever
its shape, even one lacking the required document fields - and only a
JSON parse failure leaves the previous draft untouched. -/
theorem C8_draft_replaced_iff_parses (feedback : String) (prev : Json) (resp : String)
    (gen : GenOracle) (hok : gen 0 (genMessagesModify feedback prev) = .ok resp) :
    (jsonParse resp = none → modifyLessonData feedback prev gen = prev) ∧
    (∀ v, jsonParse resp = some v → modifyLessonData feedback prev gen = v) := by
  simp only [modifyLessonData]
  rw [hok]
  constructor
  · intro hp
    simp [hp]
  · intro v hp
    simp [hp]

theorem C8_draft_replaced_iff_parses_witness :
    modifyLessonData ("add a quiz") c8Prev (fun _ _ => .ok ("%% not json %%")) = c8Prev :=
  (C8_draft_replaced_iff_parses ("add a quiz") c8Prev ("%% not json %%")
    (fun _ _ => .ok ("%% not json %%")) rfl).1 (by rfl)

theorem lookup_updateLessons (tok : String) (r r0 : LessonRec) :
    ∀ ls : List (String × LessonRec), ls.lookup tok = some r0 →
      (updateLessons ls tok r).lookup tok = some r := by
  intro ls
  induction ls with
  | nil => intro h; simp [List.lookup] at h
  | cons kv rest ih =>
    obtain ⟨k, v⟩ := kv
    intro h
    have hstep : updateLessons ((k, v) :: rest) tok r =
        (if k = tok then (tok, r) else (k, v)) :: updateLessons rest tok r := rfl
    rw [hstep]
    by_cases hk : k = tok
    · rw [if_pos hk]
      simp [List.lookup]
    · rw [if_neg hk]
      have hne : (tok == k) = false := by
        simp only [beq_eq_false_iff_ne, ne_eq]
        exact fun he => hk he.symm
      simp only [List.lookup, hne] at h ⊢
      exact ih h

def c9Lessons : List (String × LessonRec) :=
  [("tok-9", { lesson_data := fallbackLessonData, created_at := 0, sessions := [] })]

def c9Sessions : List (String × SessionData) :=
  [("sid-9", mkSession ("tok-9") [] 0 0)]

/-- Claim C9 (counterexample): a completion request with the malformed
rating "banana" - neither an integer in 1-5 nor the "not rated" sentinel -
is not rejected: the operation succeeds and appends a summary carrying
that rating verbatim to the lesson. -/
theorem C9_malformed_rating_accepted_counterexample :
    ∃ ls summary,
      complete_session c9Lessons c9Sessions (some ("sid-9")) ("banana") 600 =
        .ok (some (ls, summary)) ∧
      summary.rating = "banana" ∧
      (ls.lookup ("tok-9")).map (fun r => r.sessions.map (·.rating)) = some ["banana"] := by
  refine ⟨_, _, rfl, rfl, by rfl⟩

/-- Claim C9 (amended): complete_session performs no rating validation and
has no InvalidInput rejection: for every rating string, malformed or not,
the operation succeeds and appends to the lesson a summary carrying that
rating verbatim. -/
theorem C9_no_rating_validation (lessons : List (String × LessonRec))
    (sessions : List (String × SessionData)) (sid : String) (sd : SessionData)
    (lrec : LessonRec) (rating : String) (now : Nat)
    (hsd : sessions.lookup sid = some sd) (hrec : lessons.lookup sd.token = some lrec) :
    ∃ ls, complete_session lessons sessions (some sid) rating now =
      .ok (some (ls, mkSummary sid sd rating now)) ∧
      (mkSummary sid sd rating now).rating = rating ∧
      ls.lookup sd.token =
        some { lrec with sessions := lrec.sessions ++ [mkSummary sid sd rating now] } := by
  refine ⟨updateLessons lessons sd.token
    { lrec with sessions := lrec.sessions ++ [mkSummary sid sd rating now] }, ?_, rfl, ?_⟩
  · simp only [complete_session]
    rw [hsd]
    simp only [hrec]
  · exact lookup_updateLessons sd.token _ lrec lessons hrec

theorem C9_no_rating_validation_witness :
    ∃ ls, complete_session c9Lessons c9Sessions (some ("sid-9")) ("-3") 120 =
      .ok (some (ls, mkSummary ("sid-9") (mkSession ("tok-9") [] 0 0) ("-3") 120)) ∧
      (mkSummary ("sid-9") (mkSession ("tok-9") [] 0 0) ("-3") 120).rating = "-3" ∧
      ls.lookup ("tok-9") = some
        { lesson_data := fallbackLessonData, created_at := 0,
          sessions := [mkSummary ("sid-9") (mkSession ("tok-9") [] 0 0) ("-3") 120] } := by
  have h := C9_no_rating_validation c9Lessons c9Sessions ("sid-9") (mkSession ("tok-9") [] 0 0)
    { lesson_data := fallbackLessonData, created_at := 0, sessions := [] }
    ("-3") 120 (by rfl) (by rfl)
  simpa using h

end TutorBot
